import Mathlib

/-!
Verification development for the ONS energy-balance dashboard (src/app.py).

The script is a single linear render pass: connect to the database, run a
distinct-values query to populate the subsystem filter, build and run a
parameterized main query for the selected date window, compute four summary
metrics over the fetched table, and draw one line series per selected
subsystem.  The definitions below are a shallow embedding of that pass:
numeric columns are modelled with rationals, dataframes with lists of rows,
fallible upstream calls with Except, and the render pass with a function
from a World of inputs to an Outcome plus the list of queries issued.
-/

/-- A raw database row of table balanco_energia_subsistemas, as stored
upstream: the four generation components are nullable. -/
structure RawRow where
  din_instante : Nat
  data_ref : Nat
  nom_subsistema : String
  val_carga : ℚ
  val_gerhidraulica : Option ℚ
  val_gertermica : Option ℚ
  val_gereolica : Option ℚ
  val_gersolar : Option ℚ
deriving DecidableEq, Repr

/-- A fetched row, as produced by the SELECT list of query_principal in
src/app.py lines 96-113: each generation component null-coalesced to zero
and a derived geracao_total column. -/
structure Row where
  din_instante : Nat
  nom_subsistema : String
  val_carga : ℚ
  geracao_hidraulica : ℚ
  geracao_termica : ℚ
  geracao_eolica : ℚ
  geracao_solar : ℚ
  geracao_total : ℚ
deriving DecidableEq, Repr

/-- SQL COALESCE(x, 0): a missing value becomes zero. -/
def coalesce (x : Option ℚ) : ℚ := x.getD 0

/-- The SELECT list of query_principal (src/app.py lines 97-106): projects a
raw row to a fetched row, null-coalescing the four generation components and
deriving geracao_total as their sum. -/
def selectRow (r : RawRow) : Row :=
  { din_instante := r.din_instante
    nom_subsistema := r.nom_subsistema
    val_carga := r.val_carga
    geracao_hidraulica := coalesce r.val_gerhidraulica
    geracao_termica := coalesce r.val_gertermica
    geracao_eolica := coalesce r.val_gereolica
    geracao_solar := coalesce r.val_gersolar
    geracao_total := coalesce r.val_gerhidraulica + coalesce r.val_gertermica +
      coalesce r.val_gereolica + coalesce r.val_gersolar }

/-- The WHERE clause of query_principal (src/app.py lines 108-111): the row
date lies in the closed interval [data_inicio, data_fim] and the subsystem is
among the selected ones. -/
def rowMatches (data_inicio data_fim : Nat) (subs : List String) (r : RawRow) : Bool :=
  decide (data_inicio ≤ r.data_ref) && decide (r.data_ref ≤ data_fim) &&
    subs.contains r.nom_subsistema

/-- load_data (src/app.py lines 35-41): executes a query and returns a
dataframe; on any query failure it shows an error message and returns an
empty dataframe instead of raising.  Modelled as a total function from the
upstream response to the returned dataframe paired with the list of error
messages displayed. -/
def load_data {α : Type} (response : Except String (List α)) : List α × List String :=
  match response with
  | .ok df => (df, [])
  | .error e => ([], ["Erro na consulta: " ++ e])

/-- Date-range resolution (src/app.py lines 66-69): a two-element picker
value gives the pair, a shorter-but-nonempty value collapses both bounds to
its first date, and an empty value has no defined result (the script would
fail indexing periodo at 0). -/
def resolvePeriodo : List Nat → Option (Nat × Nat)
  | [a, b] => some (a, b)
  | a :: _ => some (a, a)
  | [] => none

/-- Energia Total metric (src/app.py line 129): sum of the load column
divided by 2 (semi-hourly samples to MWh). -/
def carga_total (df : List Row) : ℚ := (df.map Row.val_carga).sum / 2

/-- Demanda Média metric (src/app.py line 133): pandas mean of the load
column, i.e. its sum divided by the row count. -/
def demanda_media (df : List Row) : ℚ :=
  (df.map Row.val_carga).sum / (df.length : ℚ)

/-- Pico de Demanda metric (src/app.py line 137): pandas max of the load
column; undefined (bottom) on an empty frame. -/
def pico_demanda (df : List Row) : WithBot ℚ := (df.map Row.val_carga).maximum

/-- Numerator of the Renovável metric (src/app.py line 141): sum over rows
of hydro + wind + solar generation. -/
def geracao_renovavel (df : List Row) : ℚ :=
  (df.map (fun r => r.geracao_hidraulica + r.geracao_eolica + r.geracao_solar)).sum

/-- Denominator of the Renovável metric (src/app.py line 142): sum of the
geracao_total column. -/
def geracao_total_soma (df : List Row) : ℚ := (df.map Row.geracao_total).sum

/-- Renovável metric (src/app.py line 143): the renewable share as a
percentage when the total-generation sum is positive, else 0. -/
def renovavel_pct (df : List Row) : ℚ :=
  if geracao_total_soma df > 0 then
    geracao_renovavel df / geracao_total_soma df * 100
  else 0

/-- The raw rows behind the two example rows of the spec: loads 1000 and
2000 for subsystem SE/CO, all generation components absent. -/
def exampleRaws : List RawRow :=
  [⟨0, 0, "SE/CO", 1000, none, none, none, none⟩,
   ⟨1, 0, "SE/CO", 2000, none, none, none, none⟩]

/-- The two example rows of the spec, as fetched through the SELECT list. -/
def exampleDF : List Row := exampleRaws.map selectRow

/-- Semantics of subsistemas_query (src/app.py lines 72-77): SELECT DISTINCT
nom_subsistema FROM balanco_energia_subsistemas WHERE the label is non-empty,
ORDER BY nom_subsistema — the distinct non-empty subsystem labels of the
table, sorted ascending. -/
def runSubsistemasQuery (table : List RawRow) : List String :=
  (((table.map RawRow.nom_subsistema).filter (fun s => s ≠ "")).dedup).insertionSort (· ≤ ·)

/-- The fixed qualitative palette used for the chart: the value of
plotly px.colors.qualitative.Set1 bound to cores at src/app.py line 154. -/
def cores : List String :=
  ["rgb(228,26,28)", "rgb(55,126,184)", "rgb(77,175,74)", "rgb(152,78,163)",
   "rgb(255,127,0)", "rgb(255,255,51)", "rgb(166,86,40)", "rgb(247,129,191)",
   "rgb(153,153,153)"]

/-- One chart line series, as added by go.Scatter at src/app.py
lines 160-169: x = timestamps, y = loads, the series name, and the line
color. -/
structure Trace where
  x : List Nat
  y : List ℚ
  name : String
  color : String
deriving DecidableEq, Repr

/-- The trace added for the subsystem at selection index i: x and y are the
timestamp and load columns of its rows, the color is the palette entry at
index i modulo the palette size (src/app.py lines 160-169). -/
def mkTrace (i : Nat) (s : String) (dfSub : List Row) : Trace :=
  { x := dfSub.map Row.din_instante
    y := dfSub.map Row.val_carga
    name := s
    color := cores.getD (i % cores.length) "" }

/-- The chart-building loop body, starting at selection index i: for each
remaining selected subsystem, filter the fetched table to its rows and add a
trace only when that filtered frame is non-empty (src/app.py
lines 156-169). -/
def buildChartFrom (i : Nat) (sel : List String) (df : List Row) : List Trace :=
  match sel with
  | [] => []
  | s :: rest =>
    let dfSub := df.filter (fun r => r.nom_subsistema == s)
    (if dfSub.isEmpty then [] else [mkTrace i s dfSub]) ++ buildChartFrom (i + 1) rest df

/-- The chart built for a selection over the fetched table: the enumerate
loop of src/app.py lines 156-169 starting at index 0. -/
def buildChart (sel : List String) (df : List Row) : List Trace :=
  buildChartFrom 0 sel df

/-- Identifies a query issued during a render pass: the subsystem catalog
query, or the main data query with its interpolated date bounds and selected
subsystems. -/
inductive QueryId where
  | subsistemas : QueryId
  | principal (data_inicio data_fim : Nat) (subs : List String) : QueryId
deriving DecidableEq, Repr

/-- Where a render pass of main ends (src/app.py lines 43-219). -/
inductive Outcome where
  /-- Connection failed: st.stop at line 51. -/
  | haltedConnection : Outcome
  /-- The date picker yielded no date at all: indexing periodo at 0 fails. -/
  | crashed : Outcome
  /-- Empty subsystem catalog: error and st.stop at lines 89-90. -/
  | haltedEmptyCatalog : Outcome
  /-- Empty selection: the warning branch at lines 218-219, no data query. -/
  | haltedEmptySelection : Outcome
  /-- Main query returned no rows: warning and st.stop at lines 119-120. -/
  | haltedNoData : Outcome
  /-- Metrics and chart rendered: Energia Total, Demanda Média, Pico de
  Demanda, Renovável, and the line chart. -/
  | rendered (energia media : ℚ) (pico : WithBot ℚ) (renovavel : ℚ)
      (chart : List Trace) : Outcome
deriving DecidableEq

/-- The inputs one render pass of main reads: whether the connection was
obtained, the date-picker value, the upstream responses to the catalog and
main queries, and the multiselect value. -/
structure World where
  connected : Bool
  periodo : List Nat
  catalogResult : Except String (List String)
  selection : List String
  mainResult : Except String (List RawRow)

/-- One render pass of the main function (src/app.py lines 43-219): stop when the
connection failed; resolve the date range; load the subsystem catalog and
stop when it is empty; with a non-empty selection, load the main query
result, stop when it is empty, else compute the four metrics and build the
chart; with an empty selection, warn and issue no data query.  Returns the
outcome together with the queries issued, in order. -/
def mainView (w : World) : Outcome × List QueryId :=
  if !w.connected then (.haltedConnection, [])
  else
    match resolvePeriodo w.periodo with
    | none => (.crashed, [])
    | some (data_inicio, data_fim) =>
      let dfSubs := (load_data w.catalogResult).1
      if dfSubs.isEmpty then (.haltedEmptyCatalog, [.subsistemas])
      else if w.selection.isEmpty then (.haltedEmptySelection, [.subsistemas])
      else
        let df := ((load_data w.mainResult).1).map selectRow
        let issued := [QueryId.subsistemas,
          QueryId.principal data_inicio data_fim w.selection]
        if df.isEmpty then (.haltedNoData, issued)
        else
          (.rendered (carga_total df) (demanda_media df) (pico_demanda df)
            (renovavel_pct df) (buildChart w.selection df), issued)

/-- A fetched table whose only row has a positive hydro component and a
larger negative thermal component: the total-generation sum is negative. -/
def negTotalDF : List Row :=
  [selectRow ⟨0, 0, "N", 0, some 1, some (-2), none, none⟩]

/-- A fetched table whose only row has hydro 100 and thermal -50: the
renewable sum exceeds the positive total-generation sum. -/
def negThermalDF : List Row :=
  [selectRow ⟨0, 0, "N", 0, some 100, some (-50), none, none⟩]

/-- A one-row fetched table for subsystem A, used to exhibit a selected
subsystem with no rows. -/
def rowA : Row := selectRow ⟨0, 0, "A", 1, none, none, none, none⟩

/-- The renewable percentage exactly as the spec sentence words it:
100 × (renewable sum) / (total-generation sum), with the guarded branch
giving 0.  Stated separately from renovavel_pct so that the code metric can
be compared against the spec formula. -/
def specRenovavelPct (df : List Row) : ℚ :=
  if geracao_total_soma df > 0 then
    100 * geracao_renovavel df / geracao_total_soma df
  else 0

/-- A concrete render-pass input with an empty multiselect value. -/
def wEmptySel : World := ⟨true, [1, 2], .ok ["SE/CO"], [], .ok []⟩

/-- A concrete render-pass input whose catalog query returns no rows. -/
def wEmptyCat : World := ⟨true, [1, 2], .ok [], ["SE/CO"], .ok []⟩

/-- A concrete render-pass input that reaches the main data query. -/
def wBase : World := ⟨true, [1, 2], .ok ["SE/CO"], ["SE/CO"], .ok []⟩

/-- A concrete render-pass input whose date picker yielded a single date. -/
def wSingleDay : World := ⟨true, [5], .ok ["SE/CO"], ["SE/CO"], .ok []⟩

/-- C8: in every fetched row, the derived total-generation field equals the
sum of the four null-coalesced generation components. -/
theorem geracao_total_invariant (r : RawRow) :
    (selectRow r).geracao_total =
      (selectRow r).geracao_hidraulica + (selectRow r).geracao_termica +
        (selectRow r).geracao_eolica + (selectRow r).geracao_solar := rfl

/-- C1: on every non-empty fetched table, Energia Total is the load sum
halved, Demanda Média is the arithmetic mean of the load column (its product
with the row count gives back the load sum), and Pico de Demanda is a load
value that bounds every load value; on the spec example with loads 1000 and
2000 the three metrics are 1500, 1500 and 2000. -/
theorem demand_metrics_correct (df : List Row) (h : df ≠ []) :
    carga_total df = (df.map Row.val_carga).sum / 2 ∧
      demanda_media df * (df.length : ℚ) = (df.map Row.val_carga).sum ∧
      (∃ m : ℚ, pico_demanda df = (m : WithBot ℚ) ∧ m ∈ df.map Row.val_carga ∧
        ∀ x ∈ df.map Row.val_carga, x ≤ m) ∧
      carga_total exampleDF = 1500 ∧ demanda_media exampleDF = 1500 ∧
      pico_demanda exampleDF = ((2000 : ℚ) : WithBot ℚ) := by
  have hlen : (df.length : ℚ) ≠ 0 := by
    exact_mod_cast Nat.pos_iff_ne_zero.mp (List.length_pos.mpr h)
  refine ⟨rfl, ?_, ?_, ?_, ?_, ?_⟩
  · unfold demanda_media
    exact div_mul_cancel₀ _ hlen
  · have hbot : (df.map Row.val_carga).maximum ≠ ⊥ := by
      rw [Ne, List.maximum_eq_bot]
      simpa using h
    obtain ⟨m, hm⟩ := WithBot.ne_bot_iff_exists.mp hbot
    obtain ⟨hmem, hub⟩ := List.maximum_eq_coe_iff.mp hm.symm
    exact ⟨m, hm.symm, hmem, hub⟩
  · norm_num [carga_total, exampleDF, exampleRaws, selectRow]
  · norm_num [demanda_media, exampleDF, exampleRaws, selectRow]
  · rw [pico_demanda]
    rw [show exampleDF.map Row.val_carga = [(1000 : ℚ), 2000] from rfl]
    rw [List.maximum_cons, List.maximum_singleton, ← WithBot.coe_max]
    norm_num

/-- Witness for C1 at the spec example table. -/
theorem demand_metrics_correct_witness :
    carga_total exampleDF = 1500 ∧ demanda_media exampleDF = 1500 ∧
      pico_demanda exampleDF = ((2000 : ℚ) : WithBot ℚ) := by
  have h := demand_metrics_correct exampleDF (by simp [exampleDF, exampleRaws])
  exact ⟨h.2.2.2.1, h.2.2.2.2.1, h.2.2.2.2.2⟩

/-- C2 counterexample: on a fetched table whose total-generation sum is
negative (hydro 1, thermal -2), the displayed Renovável metric is 0 while
the spec formula 100 × renewable / total gives -100, so the metric does not
always equal the formula. -/
theorem renovavel_pct_negative_total :
    renovavel_pct negTotalDF = 0 ∧
      100 * geracao_renovavel negTotalDF / geracao_total_soma negTotalDF = -100 ∧
      renovavel_pct negTotalDF ≠
        100 * geracao_renovavel negTotalDF / geracao_total_soma negTotalDF := by
  norm_num [renovavel_pct, geracao_renovavel, geracao_total_soma, negTotalDF,
    selectRow, coalesce]

/-- C2 amended: the Renovável metric equals 100 × renewable sum / total sum
whenever the total-generation sum is positive and equals 0 otherwise; in
particular it is 0 (with no division-by-zero failure) when the total sum
is 0. -/
theorem renovavel_pct_spec (df : List Row) :
    renovavel_pct df = specRenovavelPct df ∧
      (geracao_total_soma df = 0 → renovavel_pct df = 0) := by
  constructor
  · unfold renovavel_pct specRenovavelPct
    split
    · ring
    · rfl
  · intro h0
    unfold renovavel_pct
    rw [h0]
    norm_num

/-- Witness for C2 amended at the empty table, whose total sum is 0. -/
theorem renovavel_pct_spec_witness :
    renovavel_pct [] = specRenovavelPct [] ∧ renovavel_pct [] = 0 :=
  ⟨(renovavel_pct_spec []).1, (renovavel_pct_spec []).2 rfl⟩

/-- C4 counterexample: on a fetched table whose only row has hydro 100 and
thermal -50, the total sum is the positive 50 while the renewable sum is
100, and the displayed Renovável metric is 200, outside [0, 100]. -/
theorem renovavel_pct_out_of_range :
    renovavel_pct negThermalDF = 200 ∧ ¬ renovavel_pct negThermalDF ≤ 100 := by
  norm_num [renovavel_pct, geracao_renovavel, geracao_total_soma, negThermalDF,
    selectRow, coalesce]

/-- C4 amended: on every fetched table coming from raw rows whose four
null-coalesced generation components are all non-negative, the Renovável
metric lies in [0, 100], and it equals 0 when the total-generation sum
is 0. -/
theorem renovavel_pct_in_range (raws : List RawRow)
    (h : ∀ r ∈ raws, 0 ≤ coalesce r.val_gerhidraulica ∧
      0 ≤ coalesce r.val_gertermica ∧ 0 ≤ coalesce r.val_gereolica ∧
      0 ≤ coalesce r.val_gersolar) :
    0 ≤ renovavel_pct (raws.map selectRow) ∧
      renovavel_pct (raws.map selectRow) ≤ 100 ∧
      (geracao_total_soma (raws.map selectRow) = 0 →
        renovavel_pct (raws.map selectRow) = 0) := by
  have hren : 0 ≤ geracao_renovavel (raws.map selectRow) := by
    apply List.sum_nonneg
    intro x hx
    simp only [List.map_map, List.mem_map, Function.comp] at hx
    obtain ⟨r, hr, rfl⟩ := hx
    obtain ⟨h1, _, h3, h4⟩ := h r hr
    simp only [selectRow]
    linarith
  have hle : geracao_renovavel (raws.map selectRow) ≤
      geracao_total_soma (raws.map selectRow) := by
    unfold geracao_renovavel geracao_total_soma
    rw [List.map_map, List.map_map]
    apply List.sum_le_sum
    intro r hr
    obtain ⟨h1, h2, h3, h4⟩ := h r hr
    simp only [Function.comp, selectRow]
    linarith
  refine ⟨?_, ?_, ?_⟩
  · unfold renovavel_pct
    split_ifs with hpos
    · exact mul_nonneg (div_nonneg hren hpos.le) (by norm_num)
    · exact le_refl 0
  · unfold renovavel_pct
    split_ifs with hpos
    · have h1 : geracao_renovavel (raws.map selectRow) /
          geracao_total_soma (raws.map selectRow) ≤ 1 :=
        (div_le_one hpos).mpr hle
      have h2 := mul_le_mul_of_nonneg_right h1 (by norm_num : (0 : ℚ) ≤ 100)
      simpa using h2
    · norm_num
  · intro h0
    unfold renovavel_pct
    rw [h0]
    norm_num

/-- Witness for C4 amended at the spec example table, whose generation
components are all zero. -/
theorem renovavel_pct_in_range_witness :
    0 ≤ renovavel_pct exampleDF ∧ renovavel_pct exampleDF ≤ 100 ∧
      renovavel_pct exampleDF = 0 := by
  have h := renovavel_pct_in_range exampleRaws (by
    intro r hr
    simp only [exampleRaws, List.mem_cons, List.not_mem_nil, or_false] at hr
    rcases hr with rfl | rfl <;> norm_num [coalesce])
  exact ⟨h.1, h.2.1, h.2.2 (by norm_num [geracao_total_soma, exampleDF,
    exampleRaws, selectRow, coalesce])⟩

/-- C7: the subsystem catalog query returns the distinct subsystem labels of
the table with the empty label excluded, sorted ascending and without
duplicates, and a label appears in it exactly when it is a non-empty label
of some table row. -/
theorem subsistemas_query_spec (table : List RawRow) :
    List.Sorted (· ≤ ·) (runSubsistemasQuery table) ∧
      (runSubsistemasQuery table).Nodup ∧
      ∀ s : String, s ∈ runSubsistemasQuery table ↔
        (s ∈ table.map RawRow.nom_subsistema ∧ s ≠ "") := by
  refine ⟨List.sorted_insertionSort _ _, ?_, ?_⟩
  · exact ((List.perm_insertionSort _ _).nodup_iff).mpr (List.nodup_dedup _)
  · intro s
    unfold runSubsistemasQuery
    rw [(List.perm_insertionSort _ _).mem_iff, List.mem_dedup, List.mem_filter]
    simp

/-- The chart loop starting at index k emits, for each offset i into the
remaining selection whose subsystem has rows in the fetched table, the trace
built at palette index k + i. -/
theorem mkTrace_mem_buildChartFrom (sel : List String) (df : List Row) :
    ∀ k i, ∀ h : i < sel.length,
      df.filter (fun r => r.nom_subsistema == sel.get ⟨i, h⟩) ≠ [] →
      mkTrace (k + i) (sel.get ⟨i, h⟩)
          (df.filter (fun r => r.nom_subsistema == sel.get ⟨i, h⟩)) ∈
        buildChartFrom k sel df := by
  induction sel with
  | nil =>
    intro k i h
    exact absurd h (by simp)
  | cons s rest ih =>
    intro k i h hne
    cases i with
    | zero =>
      simp only [List.get] at hne ⊢
      unfold buildChartFrom
      rw [List.mem_append]
      left
      rw [if_neg (by simpa [List.isEmpty_iff] using hne)]
      simp
    | succ j =>
      have hj : j < rest.length := by
        simpa using h
      have := ih (k + 1) j hj (by simpa using hne)
      unfold buildChartFrom
      rw [List.mem_append]
      right
      have harith : k + 1 + j = k + (j + 1) := by omega
      rw [harith] at this
      simpa using this

/-- The chart loop emits exactly one trace per remaining selected subsystem
that has rows in the fetched table, whatever the starting index. -/
theorem length_buildChartFrom (sel : List String) (df : List Row) :
    ∀ k, (buildChartFrom k sel df).length =
      (sel.filter
        (fun s => !(df.filter (fun r => r.nom_subsistema == s)).isEmpty)).length := by
  induction sel with
  | nil => intro k; rfl
  | cons s rest ih =>
    intro k
    unfold buildChartFrom
    rw [List.length_append, ih (k + 1)]
    by_cases hd : (df.filter (fun r => r.nom_subsistema == s)).isEmpty
    · simp [hd]
    · simp [hd, Nat.add_comm]

/-- C6 counterexample: with selection [A, B] and a fetched table holding a
single row of subsystem A, the chart has one series, not one per selected
subsystem, and no series is named B. -/
theorem chart_missing_series :
    (buildChart ["A", "B"] [rowA]).length = 1 ∧
      (["A", "B"] : List String).length = 2 ∧
      (buildChart ["A", "B"] [rowA]).length ≠ (["A", "B"] : List String).length ∧
      ∀ t ∈ buildChart ["A", "B"] [rowA], t.name ≠ "B" := by
  refine ⟨rfl, rfl, ?_, ?_⟩
  · rw [show (buildChart ["A", "B"] [rowA]).length = 1 from rfl]
    norm_num
  intro t ht
  rw [show buildChart ["A", "B"] [rowA] = [mkTrace 0 "A" [rowA]] from rfl] at ht
  rw [List.mem_singleton] at ht
  rw [ht]
  simp [mkTrace]

/-- C6 amended: for every selection and fetched table, the subsystem at
selection index i contributes a line series exactly when it has at least one
row in the table; its series has x = the timestamps and y = the loads of its
rows and carries the palette color at index i modulo the palette size, and
the chart holds exactly one series per selected subsystem with rows. -/
theorem chart_series_spec (sel : List String) (df : List Row) :
    (∀ i, ∀ h : i < sel.length,
        df.filter (fun r => r.nom_subsistema == sel.get ⟨i, h⟩) ≠ [] →
        mkTrace i (sel.get ⟨i, h⟩)
            (df.filter (fun r => r.nom_subsistema == sel.get ⟨i, h⟩)) ∈
          buildChart sel df) ∧
      (buildChart sel df).length =
        (sel.filter
          (fun s => !(df.filter (fun r => r.nom_subsistema == s)).isEmpty)).length ∧
      ∀ i s dfSub, (mkTrace i s dfSub).x = dfSub.map Row.din_instante ∧
        (mkTrace i s dfSub).y = dfSub.map Row.val_carga ∧
        (mkTrace i s dfSub).name = s ∧
        (mkTrace i s dfSub).color = cores.getD (i % cores.length) "" := by
  refine ⟨?_, length_buildChartFrom sel df 0, fun i s dfSub => ⟨rfl, rfl, rfl, rfl⟩⟩
  intro i h hne
  have := mkTrace_mem_buildChartFrom sel df 0 i h hne
  simpa [buildChart] using this

/-- Witness for C6 amended: subsystem A at selection index 0 with one row
contributes its series to the chart. -/
theorem chart_series_spec_witness :
    mkTrace 0 "A" ([rowA].filter (fun r => r.nom_subsistema == "A")) ∈
      buildChart ["A", "B"] [rowA] := by
  have h := (chart_series_spec ["A", "B"] [rowA]).1 0 (by norm_num)
    (by simp [rowA, selectRow])
  simpa using h

/-- C3: when the subsystem selection is empty (with a usable connection,
date range and non-empty catalog), the render pass ends in the
empty-selection warning branch and only the catalog query is issued — no
main data query is ever constructed or executed. -/
theorem empty_selection_halts (w : World) (hc : w.connected = true)
    (hp : (resolvePeriodo w.periodo).isSome = true)
    (hcat : (load_data w.catalogResult).1 ≠ [])
    (hsel : w.selection = []) :
    (mainView w).1 = Outcome.haltedEmptySelection ∧
      (mainView w).2 = [QueryId.subsistemas] ∧
      ∀ a b subs, QueryId.principal a b subs ∉ (mainView w).2 := by
  obtain ⟨⟨a, b⟩, hp'⟩ := Option.isSome_iff_exists.mp hp
  have h2 : mainView w = (Outcome.haltedEmptySelection, [QueryId.subsistemas]) := by
    unfold mainView
    rw [hc, hp']
    simp [List.isEmpty_iff, hcat, hsel]
  rw [h2]
  exact ⟨rfl, rfl, by simp⟩

/-- Witness for C3 at a concrete render-pass input with empty selection. -/
theorem empty_selection_halts_witness :
    (mainView wEmptySel).1 = Outcome.haltedEmptySelection ∧
      (mainView wEmptySel).2 = [QueryId.subsistemas] := by
  have h := empty_selection_halts wEmptySel rfl rfl
    (by simp [wEmptySel, load_data]) rfl
  exact ⟨h.1, h.2.1⟩

/-- C5: when the catalog query returns no rows (with a usable connection and
date range), the render pass halts in the empty-catalog error branch having
issued only the catalog query — the main data query is never executed. -/
theorem empty_catalog_halts (w : World) (hc : w.connected = true)
    (hp : (resolvePeriodo w.periodo).isSome = true)
    (hcat : (load_data w.catalogResult).1 = []) :
    (mainView w).1 = Outcome.haltedEmptyCatalog ∧
      (mainView w).2 = [QueryId.subsistemas] ∧
      ∀ a b subs, QueryId.principal a b subs ∉ (mainView w).2 := by
  obtain ⟨⟨a, b⟩, hp'⟩ := Option.isSome_iff_exists.mp hp
  have h2 : mainView w = (Outcome.haltedEmptyCatalog, [QueryId.subsistemas]) := by
    unfold mainView
    rw [hc, hp']
    simp [List.isEmpty_iff, hcat]
  rw [h2]
  exact ⟨rfl, rfl, by simp⟩

/-- Witness for C5 at a concrete render-pass input with an empty catalog. -/
theorem empty_catalog_halts_witness :
    (mainView wEmptyCat).1 = Outcome.haltedEmptyCatalog ∧
      (mainView wEmptyCat).2 = [QueryId.subsistemas] := by
  have h := empty_catalog_halts wEmptyCat rfl rfl rfl
  exact ⟨h.1, h.2.1⟩

/-- C9: load_data turns a failed query into an empty dataframe plus a
displayed error message instead of raising, so a render pass whose main
query fails is indistinguishable at the call site from one whose main query
returns no rows — both end in the no-data halt. -/
theorem load_data_failure_indistinguishable (w : World) (e : String)
    (hc : w.connected = true)
    (hp : (resolvePeriodo w.periodo).isSome = true)
    (hcat : (load_data w.catalogResult).1 ≠ [])
    (hsel : w.selection ≠ []) :
    (load_data (Except.error e) : List RawRow × List String).1 = [] ∧
      (load_data (Except.error e) : List RawRow × List String).2 ≠ [] ∧
      mainView { w with mainResult := .error e } =
        mainView { w with mainResult := .ok [] } ∧
      (mainView { w with mainResult := .error e }).1 = Outcome.haltedNoData := by
  obtain ⟨⟨a, b⟩, hp'⟩ := Option.isSome_iff_exists.mp hp
  have hcatF : ((load_data w.catalogResult).1).isEmpty = false := by
    simp [List.isEmpty_iff, hcat]
  have hselF : w.selection.isEmpty = false := by
    simp [List.isEmpty_iff, hsel]
  have hldErr : (load_data (Except.error e) : List RawRow × List String).1 = [] := rfl
  have hldOk : (load_data (Except.ok ([] : List RawRow))).1 = ([] : List RawRow) := rfl
  have herr : mainView { w with mainResult := .error e } =
      (Outcome.haltedNoData,
        [QueryId.subsistemas, QueryId.principal a b w.selection]) := by
    unfold mainView
    simp [hc, hp', hcatF, hselF, hldErr]
  have hok : mainView { w with mainResult := .ok [] } =
      (Outcome.haltedNoData,
        [QueryId.subsistemas, QueryId.principal a b w.selection]) := by
    unfold mainView
    simp [hc, hp', hcatF, hselF, hldOk]
  refine ⟨rfl, by simp [load_data], ?_, ?_⟩
  · rw [herr, hok]
  · rw [herr]

/-- Witness for C9 at a concrete render-pass input. -/
theorem load_data_failure_indistinguishable_witness :
    mainView { wBase with mainResult := .error "boom" } =
      mainView { wBase with mainResult := .ok [] } ∧
      (mainView { wBase with mainResult := .error "boom" }).1 =
        Outcome.haltedNoData := by
  have h := load_data_failure_indistinguishable wBase "boom" rfl rfl
    (by simp [wBase, load_data]) (by simp [wBase])
  exact ⟨h.2.2.1, h.2.2.2⟩

/-- C10: when the date picker yields the single date d, the analysis window
collapses to the closed one-day interval [d, d]; the main query issued
during such a render pass carries d as both bounds, and its date filter
accepts exactly the rows whose reference date is d (and whose subsystem is
selected). -/
theorem single_date_window (w : World) (d : Nat) (hc : w.connected = true)
    (hper : w.periodo = [d])
    (hcat : (load_data w.catalogResult).1 ≠ [])
    (hsel : w.selection ≠ []) :
    resolvePeriodo w.periodo = some (d, d) ∧
      QueryId.principal d d w.selection ∈ (mainView w).2 ∧
      ∀ subs r, rowMatches d d subs r = true ↔
        (r.data_ref = d ∧ r.nom_subsistema ∈ subs) := by
  have hres : resolvePeriodo w.periodo = some (d, d) := by
    rw [hper]
    rfl
  refine ⟨hres, ?_, ?_⟩
  · unfold mainView
    rw [hc, hres]
    by_cases hdf : ((load_data w.mainResult).1).map selectRow = []
    · simp [List.isEmpty_iff, hcat, hsel, hdf]
    · simp [List.isEmpty_iff, hcat, hsel, hdf]
  · intro subs r
    simp only [rowMatches, Bool.and_eq_true, decide_eq_true_eq, List.elem_iff]
    constructor
    · rintro ⟨⟨h1, h2⟩, h3⟩
      exact ⟨le_antisymm h2 h1, h3⟩
    · rintro ⟨hd, h3⟩
      exact ⟨⟨le_of_eq hd.symm, le_of_eq hd⟩, h3⟩

/-- Witness for C10 at a concrete render-pass input whose picker yielded
only the date 5. -/
theorem single_date_window_witness :
    resolvePeriodo wSingleDay.periodo = some (5, 5) ∧
      QueryId.principal 5 5 wSingleDay.selection ∈ (mainView wSingleDay).2 := by
  have h := single_date_window wSingleDay 5 rfl rfl
    (by simp [wSingleDay, load_data]) (by simp [wSingleDay])
  exact ⟨h.1, h.2.1⟩

/-- Witness for C8 at a concrete raw row. -/
theorem geracao_total_invariant_witness :
    (selectRow ⟨0, 0, "SE/CO", 1000, none, none, none, none⟩).geracao_total =
      (selectRow ⟨0, 0, "SE/CO", 1000, none, none, none, none⟩).geracao_hidraulica +
        (selectRow ⟨0, 0, "SE/CO", 1000, none, none, none, none⟩).geracao_termica +
        (selectRow ⟨0, 0, "SE/CO", 1000, none, none, none, none⟩).geracao_eolica +
        (selectRow ⟨0, 0, "SE/CO", 1000, none, none, none, none⟩).geracao_solar :=
  geracao_total_invariant ⟨0, 0, "SE/CO", 1000, none, none, none, none⟩

/-- Witness for C7 at the example table. -/
theorem subsistemas_query_spec_witness :
    "SE/CO" ∈ runSubsistemasQuery exampleRaws ↔
      ("SE/CO" ∈ exampleRaws.map RawRow.nom_subsistema ∧ "SE/CO" ≠ "") :=
  (subsistemas_query_spec exampleRaws).2.2 "SE/CO"
